import Mathlib

/-!
Verification of the Axiom decision-intelligence core.

Shallow embedding, over exact rationals (`ℚ`), of:
  * `app/ml/features.py`            — feature vector builder
  * `app/ml/prediction_engine.py`   — ML/fallback prediction engine
  * `app/ml/model_registry.py`      — version resolution
  * `app/services/benchmarking.py`  — benchmark percentile estimation
  * `app/services/trends.py`        — OLS trend detection
  * `app/services/anomaly.py`       — Z-score anomaly scan
  * `app/repositories/intelligence_repository.py` — pure (Python-side)
    aggregate computations feeding the services

Conventions:
  * Python `float` arithmetic is modelled exactly over `ℚ`; floating-point
    rounding error is out of scope (amounts are small decimal quantities).
  * Pure string *formatting* (explanation/summary/insight message bodies,
    `f"..."` interpolation) carries no logic and is not modelled; where a
    message list's *structure* matters it is kept with fixed labels.
  * Opaque ML artifacts (the sklearn regressor and scaler) are modelled as
    parameters: the regressor's output on the scaled vector is an arbitrary
    rational, its `feature_importances_` an optional list of rationals
    (`none` = the attribute is missing, Python `AttributeError` branch).
  * `np.sqrt`-style square roots (inside `np.std`) do not exist on `ℚ`;
    the standard deviation is parameterised by a square-root function `sq`.
    Only `sq 0 = 0` (true for any square root) is ever relied upon.
-/

/-- Enum `RiskLevel` from `app/models/models.py`. -/
inductive RiskLevel
  | low
  | medium
  | high
deriving DecidableEq, Repr

/-- Enum `JobRecommendation` from `app/models/models.py`. -/
inductive JobRecommendation
  | accept
  | review
  | reject
deriving DecidableEq, Repr

/-- Enum `FuelType` from `app/models/models.py`; its `.value` is the
lowercase string every in-repo constructor of `JobFeatureInput` passes. -/
inductive FuelType
  | diesel
  | petrol
  | electric
  | hybrid
deriving DecidableEq, Repr

/-- `FuelType.value` — the string payload of the `str`-valued enum. -/
def FuelType.value : FuelType → String
  | .diesel => "diesel"
  | .petrol => "petrol"
  | .electric => "electric"
  | .hybrid => "hybrid"

/-- `FEATURE_NAMES` from `app/ml/features.py` (fixed column order). -/
def FEATURE_NAMES : List String :=
  [ "distance_km"
  , "estimated_duration_hours"
  , "km_per_hour"
  , "offered_rate"
  , "rate_per_km"
  , "toll_costs"
  , "toll_ratio"
  , "other_costs"
  , "fuel_price_per_unit"
  , "fuel_consumption_per_100km"
  , "fuel_cost_raw"
  , "fuel_cost_ratio"
  , "maintenance_cost_per_km"
  , "insurance_monthly"
  , "leasing_monthly"
  , "fixed_cost_per_km"
  , "hourly_rate"
  , "monthly_fixed_cost"
  , "driver_cost_raw"
  , "fuel_type_diesel"
  , "fuel_type_electric"
  , "fuel_type_hybrid"
  , "fuel_type_petrol" ]

/-- `N_FEATURES = len(FEATURE_NAMES)`. -/
def N_FEATURES : ℕ := FEATURE_NAMES.length

/-- `_AVG_DAILY_KM` from `app/ml/features.py`. -/
def AVG_DAILY_KM : ℚ := 350

/-- `_WORKING_DAYS` from `app/ml/features.py`. -/
def WORKING_DAYS : ℚ := 22

/-- Python `str.lower()` (character-wise; the inputs here are ASCII). -/
def strLower (s : String) : String := String.mk (s.data.map Char.toLower)

/-- Dataclass `JobFeatureInput` from `app/ml/features.py`.  `fuel_type`
is a raw string there (documented domain: the four `FuelType` values). -/
structure JobFeatureInput where
  distance_km : ℚ
  estimated_duration_hours : ℚ
  offered_rate : ℚ
  toll_costs : ℚ
  other_costs : ℚ
  fuel_price_per_unit : ℚ
  fuel_consumption_per_100km : ℚ
  maintenance_cost_per_km : ℚ
  insurance_monthly : ℚ
  leasing_monthly : ℚ
  fuel_type : String
  hourly_rate : ℚ
  monthly_fixed_cost : ℚ
deriving DecidableEq, Repr

/-- `build_feature_vector` from `app/ml/features.py`.  The `(1, N)` numpy
array is modelled as the list of its 23 entries, in column order.
Python `x / y if y > 0 else 0.0` guards are kept verbatim. -/
def build_feature_vector (inp : JobFeatureInput) : List ℚ :=
  let d := inp.distance_km
  let dur := inp.estimated_duration_hours
  let rate := inp.offered_rate
  let km_per_hour := if dur > 0 then d / dur else 0
  let rate_per_km := if d > 0 then rate / d else 0
  let toll_share := if rate > 0 then inp.toll_costs / rate else 0
  let fuel_cost_raw := (d / 100) * inp.fuel_consumption_per_100km * inp.fuel_price_per_unit
  let fuel_cost_share := if rate > 0 then fuel_cost_raw / rate else 0
  let avg_monthly_km := AVG_DAILY_KM * WORKING_DAYS
  let fixed_monthly := inp.insurance_monthly + inp.leasing_monthly
  let fixed_cost_per_km := if avg_monthly_km > 0 then fixed_monthly / avg_monthly_km else 0
  let driver_cost_raw := inp.hourly_rate * dur
  -- `ft = inp.fuel_type.lower() if inp.fuel_type else "diesel"`
  let ft := if inp.fuel_type = "" then "diesel" else strLower inp.fuel_type
  let fuel_type_diesel : ℚ := if ft = "diesel" then 1 else 0
  let fuel_type_electric : ℚ := if ft = "electric" then 1 else 0
  let fuel_type_hybrid : ℚ := if ft = "hybrid" then 1 else 0
  let fuel_type_petrol : ℚ := if ft = "petrol" then 1 else 0
  [ d
  , dur
  , km_per_hour
  , rate
  , rate_per_km
  , inp.toll_costs
  , toll_share
  , inp.other_costs
  , inp.fuel_price_per_unit
  , inp.fuel_consumption_per_100km
  , fuel_cost_raw
  , fuel_cost_share
  , inp.maintenance_cost_per_km
  , inp.insurance_monthly
  , inp.leasing_monthly
  , fixed_cost_per_km
  , inp.hourly_rate
  , inp.monthly_fixed_cost
  , driver_cost_raw
  , fuel_type_diesel
  , fuel_type_electric
  , fuel_type_hybrid
  , fuel_type_petrol ]

/-- The `assert len(vector) == N_FEATURES` contract in
`build_feature_vector` (here a theorem instead of a runtime assertion). -/
theorem build_feature_vector_length (inp : JobFeatureInput) :
    (build_feature_vector inp).length = N_FEATURES := rfl

/-- Output dataclass `MLPredictionOutput` from `app/ml/prediction_engine.py`.
`feature_importances` (a Python dict built in insertion order) is modelled
as an association list; the `explanation` string (pure formatting) is
omitted. -/
structure MLPredictionOutput where
  predicted_net_profit : ℚ
  predicted_total_cost : ℚ
  margin_pct : ℚ
  risk_level : RiskLevel
  recommendation : JobRecommendation
  feature_importances : List (String × ℚ)
  model_version : Option String
  used_ml_model : Bool
deriving DecidableEq, Repr

/-- `_score_risk` from `app/ml/prediction_engine.py` (lines 58-63),
shared by both prediction paths. -/
def score_risk (margin_pct fuel_share : ℚ) : RiskLevel × JobRecommendation :=
  if margin_pct < 5 then (RiskLevel.high, JobRecommendation.reject)
  else if margin_pct < 15 ∨ fuel_share > 1/2 then (RiskLevel.medium, JobRecommendation.review)
  else (RiskLevel.low, JobRecommendation.accept)

/-- Sum of the importance weights of a prediction's `feature_importances`. -/
def importances_sum (l : List (String × ℚ)) : ℚ := (l.map Prod.snd).sum

/-- `_get_feature_importances` from `app/ml/prediction_engine.py`.
`raw = none` models the `AttributeError` branch (model without
`feature_importances_`); `raw = some r` the numpy importance vector. -/
def get_feature_importances (raw : Option (List ℚ)) : List (String × ℚ) :=
  match raw with
  | none => FEATURE_NAMES.map (fun n => (n, 1 / (N_FEATURES : ℚ)))
  | some r =>
      let total := r.sum
      if total = 0 then FEATURE_NAMES.map (fun n => (n, (0 : ℚ)))
      else FEATURE_NAMES.zip (r.map (fun v => v / total))

/-- `_ml_predict` from `app/ml/prediction_engine.py` (trained path).
The opaque sklearn model is abstracted: `predicted_net_profit` is its
output on the scaled vector, `raw_importances` its
`feature_importances_` attribute (`none` if absent), `version` the
active metadata's version. -/
def ml_predict (predicted_net_profit : ℚ) (raw_importances : Option (List ℚ))
    (version : String) (feature_input : JobFeatureInput) (offered_rate : ℚ) :
    MLPredictionOutput :=
  let X_raw := build_feature_vector feature_input
  let predicted_total_cost := offered_rate - predicted_net_profit
  let margin_pct := if offered_rate > 0 then predicted_net_profit / offered_rate * 100 else 0
  let importances := get_feature_importances raw_importances
  let fuel_cost_raw := X_raw.getD (FEATURE_NAMES.indexOf "fuel_cost_raw") 0
  let fuel_share := if offered_rate > 0 then fuel_cost_raw / offered_rate else 0
  let rr := score_risk margin_pct fuel_share
  { predicted_net_profit := predicted_net_profit
  , predicted_total_cost := predicted_total_cost
  , margin_pct := margin_pct
  , risk_level := rr.1
  , recommendation := rr.2
  , feature_importances := importances
  , model_version := some version
  , used_ml_model := true }

/-- `fuel_cost` term of `_deterministic_predict`
(`(d / 100.0) * fi.fuel_consumption_per_100km * fi.fuel_price_per_unit`). -/
def fuel_cost (fi : JobFeatureInput) : ℚ :=
  (fi.distance_km / 100) * fi.fuel_consumption_per_100km * fi.fuel_price_per_unit

/-- `driver_cost` term of `_deterministic_predict`
(`fi.hourly_rate * dur + fi.monthly_fixed_cost / (22 * 8)`). -/
def driver_cost (fi : JobFeatureInput) : ℚ :=
  fi.hourly_rate * fi.estimated_duration_hours + fi.monthly_fixed_cost / (22 * 8)

/-- `maintenance_cost` term of `_deterministic_predict`
(`d * fi.maintenance_cost_per_km`). -/
def maintenance_cost (fi : JobFeatureInput) : ℚ :=
  fi.distance_km * fi.maintenance_cost_per_km

/-- `fixed_allocation` term of `_deterministic_predict`
(`(fi.insurance_monthly + fi.leasing_monthly) / avg_monthly_km * d`
with `avg_monthly_km = 350.0 * 22`). -/
def fixed_allocation (fi : JobFeatureInput) : ℚ :=
  (fi.insurance_monthly + fi.leasing_monthly) / (350 * 22) * fi.distance_km

/-- `total_cost` term of `_deterministic_predict`. -/
def total_cost (fi : JobFeatureInput) : ℚ :=
  fuel_cost fi + driver_cost fi + maintenance_cost fi + fi.toll_costs
    + fixed_allocation fi + fi.other_costs

/-- `_deterministic_predict` from `app/ml/prediction_engine.py`
(fallback path, lines 155-200). -/
def deterministic_predict (fi : JobFeatureInput) (offered_rate : ℚ) :
    MLPredictionOutput :=
  let net_profit := offered_rate - total_cost fi
  let margin_pct := if offered_rate > 0 then net_profit / offered_rate * 100 else 0
  let fuel_share := if offered_rate > 0 then fuel_cost fi / offered_rate else 0
  let rr := score_risk margin_pct fuel_share
  let importances : List (String × ℚ) :=
    [ ("fuel_cost_raw", if total_cost fi > 0 then fuel_cost fi / total_cost fi else 0)
    , ("driver_cost_raw", if total_cost fi > 0 then driver_cost fi / total_cost fi else 0)
    , ("maintenance_cost_per_km",
        if total_cost fi > 0 then maintenance_cost fi / total_cost fi else 0) ]
  { predicted_net_profit := net_profit
  , predicted_total_cost := total_cost fi
  , margin_pct := margin_pct
  , risk_level := rr.1
  , recommendation := rr.2
  , feature_importances := importances
  , model_version := none
  , used_ml_model := false }

/-- Python `int(q)` on a rational: truncation toward zero. -/
def pyInt (q : ℚ) : ℤ := if 0 ≤ q then ⌊q⌋ else ⌈q⌉

/-- Python `round(x)` (banker's rounding, ties to even) on a rational. -/
def round_half_even (x : ℚ) : ℤ :=
  let f := ⌊x⌋
  let r := x - f
  if r < 1/2 then f
  else if 1/2 < r then f + 1
  else if f % 2 = 0 then f else f + 1

/-- Python `round(x, ndigits)` on a rational. -/
def round_to (ndigits : ℕ) (x : ℚ) : ℚ :=
  (round_half_even (x * 10 ^ ndigits) : ℚ) / 10 ^ ndigits

/-- Value of a decimal-digit character ('0'-'9'). -/
def digitVal (c : Char) : ℕ := c.toNat - 48

/-- Numeric value of a digit string (Python `int(s)` for a digit-only `s`). -/
def digitsVal (l : List Char) : ℕ := l.foldl (fun a c => a * 10 + digitVal c) 0

/-- `_version_key` from `app/ml/model_registry.py`:
`name = p.name.lstrip("v"); return int(name) if name.isdigit() else 0`.
Python `str.isdigit()` is false on the empty string. -/
def version_key (name : String) : ℕ :=
  let t := name.toList.dropWhile (fun c => c = 'v')
  if t ≠ [] ∧ t.all Char.isDigit then digitsVal t else 0

/-- A directory under `models/`: its name and whether `model.joblib`
exists in it (the candidate filter of `_find_latest_version_dir`). -/
structure DirEntry where
  name : String
  has_model : Bool
deriving DecidableEq, Repr

/-- `sorted(candidates, key=_version_key)[-1]` — the last element of a
stable sort is the *last* element of maximal key. -/
def last_max_by_key (a : DirEntry) : List DirEntry → DirEntry
  | [] => a
  | b :: bs => last_max_by_key (if version_key a.name ≤ version_key b.name then b else a) bs

/-- `_find_latest_version_dir` from `app/ml/model_registry.py` (lines
143-157), over the observed directory listing of `models_dir`. -/
def find_latest_version_dir (dirs : List DirEntry) : Option String :=
  let candidates := dirs.filter (fun d => d.has_model)
  match candidates with
  | [] => none
  | c :: cs => some (last_max_by_key c cs).name

/-- Helper: `_score_risk` below the 5% margin threshold always returns
`(high, reject)` regardless of the fuel share. -/
theorem score_risk_below_five (m fs : ℚ) (h : m < 5) :
    score_risk m fs = (RiskLevel.high, JobRecommendation.reject) := by
  simp [score_risk, h]

/-- Helper: sum of a list divided elementwise by a constant. -/
theorem sum_map_div (l : List ℚ) (c : ℚ) :
    (l.map (fun v => v / c)).sum = l.sum / c := by
  induction l with
  | nil => simp
  | cons a t ih => simp [ih, add_div]

/-- Concrete fallback input: everything zero except `other_costs = 97`,
`offered_rate = 100`; total cost 97, net profit 3, margin 3%. -/
def fiC1 : JobFeatureInput :=
  { distance_km := 0, estimated_duration_hours := 0, offered_rate := 100
  , toll_costs := 0, other_costs := 97, fuel_price_per_unit := 0
  , fuel_consumption_per_100km := 0, maintenance_cost_per_km := 0
  , insurance_monthly := 0, leasing_monthly := 0, fuel_type := "diesel"
  , hourly_rate := 0, monthly_fixed_cost := 0 }

/-- C1 (counterexample): a fallback prediction with margin 3% — strictly
between 0 and 5 — is recommended `reject`, not `review`: `_score_risk`
returns `reject` for *every* margin below 5%, so the claimed
"reject iff margin ≤ 0, review otherwise" split does not exist. -/
theorem C1_counterexample :
    (deterministic_predict fiC1 100).margin_pct = 3
    ∧ 0 < (deterministic_predict fiC1 100).margin_pct
    ∧ (deterministic_predict fiC1 100).margin_pct < 5
    ∧ (deterministic_predict fiC1 100).recommendation = JobRecommendation.reject
    ∧ (deterministic_predict fiC1 100).recommendation ≠ JobRecommendation.review := by
  norm_num [deterministic_predict, total_cost, fuel_cost, driver_cost, maintenance_cost,
    fixed_allocation, score_risk, fiC1]
  decide

/-- C1 (amended): on both prediction paths, whenever `margin_pct < 5` the
result has `risk_level = high` and `recommendation = reject`
(unconditionally — also for positive margins below 5%). -/
theorem C1_amended_rejects_below_five (fi : JobFeatureInput) (rate p : ℚ)
    (raw : Option (List ℚ)) (ver : String) :
    ((deterministic_predict fi rate).margin_pct < 5 →
        (deterministic_predict fi rate).risk_level = RiskLevel.high
        ∧ (deterministic_predict fi rate).recommendation = JobRecommendation.reject)
    ∧ ((ml_predict p raw ver fi rate).margin_pct < 5 →
        (ml_predict p raw ver fi rate).risk_level = RiskLevel.high
        ∧ (ml_predict p raw ver fi rate).recommendation = JobRecommendation.reject) := by
  constructor
  · intro h
    simp only [deterministic_predict] at h ⊢
    rw [score_risk_below_five _ _ h]
    exact ⟨rfl, rfl⟩
  · intro h
    simp only [ml_predict] at h ⊢
    rw [score_risk_below_five _ _ h]
    exact ⟨rfl, rfl⟩

/-- C1 (witness): the amended theorem applied on both paths at a concrete
low-margin input. -/
theorem C1_amended_witness :
    ((deterministic_predict fiC1 100).margin_pct < 5
      ∧ (deterministic_predict fiC1 100).risk_level = RiskLevel.high
      ∧ (deterministic_predict fiC1 100).recommendation = JobRecommendation.reject)
    ∧ ((ml_predict 0 none "v1" fiC1 100).margin_pct < 5
      ∧ (ml_predict 0 none "v1" fiC1 100).risk_level = RiskLevel.high
      ∧ (ml_predict 0 none "v1" fiC1 100).recommendation = JobRecommendation.reject) := by
  have h1 : (deterministic_predict fiC1 100).margin_pct < 5 := by
    norm_num [deterministic_predict, total_cost, fuel_cost, driver_cost, maintenance_cost,
      fixed_allocation, fiC1]
  have h2 : (ml_predict 0 none "v1" fiC1 100).margin_pct < 5 := by
    norm_num [ml_predict]
  exact ⟨⟨h1, (C1_amended_rejects_below_five fiC1 100 0 none "v1").1 h1⟩,
         ⟨h2, (C1_amended_rejects_below_five fiC1 100 0 none "v1").2 h2⟩⟩

/-- C2: on both paths `predicted_total_cost + predicted_net_profit`
equals `offered_rate` exactly, and `margin_pct` is
`predicted_net_profit / offered_rate × 100` when the rate is positive
and `0` otherwise. -/
theorem C2_totals_and_margin (fi : JobFeatureInput) (rate p : ℚ)
    (raw : Option (List ℚ)) (ver : String) :
    ((deterministic_predict fi rate).predicted_total_cost
        + (deterministic_predict fi rate).predicted_net_profit = rate)
    ∧ ((deterministic_predict fi rate).margin_pct
        = if rate > 0 then (deterministic_predict fi rate).predicted_net_profit / rate * 100 else 0)
    ∧ ((ml_predict p raw ver fi rate).predicted_total_cost
        + (ml_predict p raw ver fi rate).predicted_net_profit = rate)
    ∧ ((ml_predict p raw ver fi rate).margin_pct
        = if rate > 0 then (ml_predict p raw ver fi rate).predicted_net_profit / rate * 100 else 0) := by
  refine ⟨?_, rfl, ?_, rfl⟩
  · simp only [deterministic_predict]
    ring
  · simp only [ml_predict]
    ring

/-- Concrete fallback input whose cost breakdown is fuel 30, driver 20,
maintenance 10, tolls 40 — total 100, so the pseudo-importances sum
to 3/5, not 1. -/
def fiC3 : JobFeatureInput :=
  { distance_km := 100, estimated_duration_hours := 2, offered_rate := 1000
  , toll_costs := 40, other_costs := 0, fuel_price_per_unit := 1
  , fuel_consumption_per_100km := 30, maintenance_cost_per_km := 1/10
  , insurance_monthly := 0, leasing_monthly := 0, fuel_type := "diesel"
  , hourly_rate := 10, monthly_fixed_cost := 0 }

/-- C3 (counterexample): a fallback prediction whose `feature_importances`
sum to 3/5 ≠ 1 — the pseudo-importances are only the fuel/driver/
maintenance shares of total cost, and tolls make up the missing 2/5. -/
theorem C3_counterexample :
    importances_sum (deterministic_predict fiC3 1000).feature_importances = 3/5
    ∧ (3/5 : ℚ) ≠ 1 := by
  norm_num [importances_sum, deterministic_predict, total_cost, fuel_cost, driver_cost,
    maintenance_cost, fixed_allocation, fiC3]

/-- C3 (amended): on the ML path the importances sum to 1 whenever the
model exposes one weight per feature with nonzero total (and also in the
uniform fallback when the attribute is missing); on the deterministic
path they sum to `(fuel + driver + maintenance) / total_cost`, which is
1 only when tolls, fixed allocation and other costs vanish. -/
theorem C3_amended_importances :
    (∀ raw : List ℚ, raw.length = N_FEATURES → raw.sum ≠ 0 →
        importances_sum (get_feature_importances (some raw)) = 1)
    ∧ importances_sum (get_feature_importances none) = 1
    ∧ (∀ fi : JobFeatureInput, ∀ rate : ℚ, 0 < total_cost fi →
        importances_sum (deterministic_predict fi rate).feature_importances
          = (fuel_cost fi + driver_cost fi + maintenance_cost fi) / total_cost fi) := by
  refine ⟨?_, ?_, ?_⟩
  · intro raw hlen hsum
    have hle : (raw.map (fun v => v / raw.sum)).length ≤ FEATURE_NAMES.length := by
      simp [hlen, N_FEATURES]
    simp only [importances_sum, get_feature_importances, if_neg hsum]
    rw [List.map_snd_zip _ _ hle, sum_map_div, div_self hsum]
  · norm_num [importances_sum, get_feature_importances, FEATURE_NAMES, N_FEATURES]
  · intro fi rate h
    have hne : total_cost fi ≠ 0 := ne_of_gt h
    simp only [importances_sum, deterministic_predict, if_pos h, List.map_cons,
      List.map_nil, List.sum_cons, List.sum_nil]
    field_simp
    ring

/-- C3 (witness): the amended theorem applied to a uniform raw-importance
vector and to the concrete fallback input. -/
theorem C3_amended_witness :
    ((List.replicate 23 (1:ℚ)).length = N_FEATURES ∧ (List.replicate 23 (1:ℚ)).sum ≠ 0
      ∧ importances_sum (get_feature_importances (some (List.replicate 23 1))) = 1)
    ∧ (0 < total_cost fiC3
      ∧ importances_sum (deterministic_predict fiC3 1000).feature_importances
          = (fuel_cost fiC3 + driver_cost fiC3 + maintenance_cost fiC3) / total_cost fiC3) := by
  have hlen : (List.replicate 23 (1:ℚ)).length = N_FEATURES := by
    norm_num [N_FEATURES, FEATURE_NAMES]
  have hsum : (List.replicate 23 (1:ℚ)).sum ≠ 0 := by
    norm_num [List.sum_replicate]
  have hpos : 0 < total_cost fiC3 := by
    norm_num [total_cost, fuel_cost, driver_cost, maintenance_cost, fixed_allocation, fiC3]
  exact ⟨⟨hlen, hsum, C3_amended_importances.1 _ hlen hsum⟩,
         ⟨hpos, C3_amended_importances.2.2 fiC3 1000 hpos⟩⟩

/-- C4: the four one-hot energy-type dimensions (indices 19-22:
diesel, electric, hybrid, petrol) of `build_feature_vector` sum to
exactly 1 for every `JobFeatureInput` whose `fuel_type` lies in the
documented domain — the four `FuelType` enum values (every in-repo
constructor passes `truck.fuel_type.value`), or the empty string,
which the builder defaults to `"diesel"`. -/
theorem C4_one_hot_sums_to_one (inp : JobFeatureInput)
    (h : (∃ ft : FuelType, inp.fuel_type = ft.value) ∨ inp.fuel_type = "") :
    (build_feature_vector inp).getD 19 0 + (build_feature_vector inp).getD 20 0
      + (build_feature_vector inp).getD 21 0 + (build_feature_vector inp).getD 22 0 = 1 := by
  rcases h with ⟨ft, hft⟩ | hft
  · cases ft <;>
      simp [build_feature_vector, FuelType.value, hft, strLower, List.getD]
  · simp [build_feature_vector, hft, List.getD]

/-- Concrete electric-truck input for the C4 witness. -/
def fiC4 : JobFeatureInput :=
  { distance_km := 0, estimated_duration_hours := 0, offered_rate := 0
  , toll_costs := 0, other_costs := 0, fuel_price_per_unit := 0
  , fuel_consumption_per_100km := 0, maintenance_cost_per_km := 0
  , insurance_monthly := 0, leasing_monthly := 0, fuel_type := "electric"
  , hourly_rate := 0, monthly_fixed_cost := 0 }

/-- C4 (witness): the one-hot sum evaluated at a concrete electric input. -/
theorem C4_one_hot_witness :
    ((∃ ft : FuelType, fiC4.fuel_type = ft.value) ∨ fiC4.fuel_type = "")
    ∧ (build_feature_vector fiC4).getD 19 0 + (build_feature_vector fiC4).getD 20 0
      + (build_feature_vector fiC4).getD 21 0 + (build_feature_vector fiC4).getD 22 0 = 1 := by
  have h : (∃ ft : FuelType, fiC4.fuel_type = ft.value) ∨ fiC4.fuel_type = "" :=
    Or.inl ⟨FuelType.electric, rfl⟩
  exact ⟨h, C4_one_hot_sums_to_one fiC4 h⟩

/-- The end-to-end fallback input of spec §8: 440 km, 6 h, rate 1200,
fuel 1.5/unit at 30/100 km, maintenance 0.5/km, insurance 500/mo,
leasing 1000/mo, driver 25/h + 2000/mo fixed, no tolls/other costs. -/
def fiC5 : JobFeatureInput :=
  { distance_km := 440, estimated_duration_hours := 6, offered_rate := 1200
  , toll_costs := 0, other_costs := 0, fuel_price_per_unit := 3/2
  , fuel_consumption_per_100km := 30, maintenance_cost_per_km := 1/2
  , insurance_monthly := 500, leasing_monthly := 1000, fuel_type := "diesel"
  , hourly_rate := 25, monthly_fixed_cost := 2000 }

/-- C5: the fallback prediction on the spec's end-to-end example yields
fuel 198 and maintenance 220 exactly, driver ≈ 161.36,
fixed allocation ≈ 85.71, total ≈ 665.07, profit ≈ 534.93 (each within
0.01), margin ≈ 44.6% (within 0.05), risk low, recommendation accept,
deterministic path (no model version). -/
theorem C5_fallback_end_to_end :
    fuel_cost fiC5 = 198
    ∧ |driver_cost fiC5 - 16136/100| ≤ 1/100
    ∧ maintenance_cost fiC5 = 220
    ∧ |fixed_allocation fiC5 - 8571/100| ≤ 1/100
    ∧ |(deterministic_predict fiC5 1200).predicted_total_cost - 66507/100| ≤ 1/100
    ∧ |(deterministic_predict fiC5 1200).predicted_net_profit - 53493/100| ≤ 1/100
    ∧ |(deterministic_predict fiC5 1200).margin_pct - 446/10| ≤ 5/100
    ∧ (deterministic_predict fiC5 1200).risk_level = RiskLevel.low
    ∧ (deterministic_predict fiC5 1200).recommendation = JobRecommendation.accept
    ∧ (deterministic_predict fiC5 1200).used_ml_model = false
    ∧ (deterministic_predict fiC5 1200).model_version = none := by
  norm_num [deterministic_predict, total_cost, fuel_cost, driver_cost, maintenance_cost,
    fixed_allocation, score_risk, fiC5, abs_le]

/-- `MIN_FLEETS_FOR_BENCHMARK` from
`app/repositories/intelligence_repository.py`. -/
def MIN_FLEETS_FOR_BENCHMARK : ℕ := 3

/-- `fleet_size_to_bucket` from
`app/repositories/intelligence_repository.py` (lines 388-394). -/
def fleet_size_to_bucket (truck_count : ℕ) : String :=
  if truck_count ≤ 2 then "small"
  else if truck_count ≤ 10 then "medium"
  else "large"

/-- Result dict of `fleet_performance_summary` (the tenant's own
aggregate, already rounded by the repository). -/
structure PerfSummary where
  job_count : ℕ
  avg_margin_pct : ℚ
  avg_net_profit : ℚ
  avg_rate_per_km : ℚ
  avg_cost_per_km : ℚ
  total_revenue : ℚ
  total_profit : ℚ
deriving DecidableEq, Repr

/-- Dataclass `FleetMetrics` from `app/services/benchmarking.py`. -/
structure FleetMetrics where
  job_count : ℕ
  avg_margin_pct : ℚ
  avg_net_profit : ℚ
  avg_rate_per_km : ℚ
  avg_cost_per_km : ℚ
  total_revenue : ℚ
  total_profit : ℚ
  fleet_size_bucket : String
  truck_count : ℕ
deriving DecidableEq, Repr

/-- Dataclass `IndustryContext` from `app/services/benchmarking.py`. -/
structure IndustryContext where
  n_fleets : ℕ
  fleet_size_bucket : String
  industry_avg_margin_pct : ℚ
  p25_margin_pct : ℚ
  p50_margin_pct : ℚ
  p75_margin_pct : ℚ
  p90_margin_pct : ℚ
  industry_avg_rate_per_km : ℚ
  industry_avg_cost_per_km : ℚ
deriving DecidableEq, Repr

/-- Dataclass `BenchmarkResult` from `app/services/benchmarking.py`.
Insight strings are kept as fixed labels (formatting not modelled). -/
structure BenchmarkResult where
  fleet_metrics : FleetMetrics
  industry_context : Option IndustryContext
  fleet_percentile : Option ℤ
  margin_vs_industry : Option ℚ
  rate_vs_industry : Option ℚ
  cost_vs_industry : Option ℚ
  insights : List String
  insufficient_data : Bool
deriving DecidableEq, Repr

/-- One row of the `per_fleet` subquery of `industry_percentiles`:
a single peer tenant's own averages (never raw jobs). -/
structure PerFleetAgg where
  fleet_avg_margin : ℚ
  fleet_avg_rate_per_km : ℚ
  fleet_avg_cost_per_km : ℚ
deriving DecidableEq, Repr

/-- `np.mean` over a rational list. -/
def np_mean (xs : List ℚ) : ℚ := xs.sum / xs.length

/-- Ascending sort of a rational list (`np.percentile` sorts internally). -/
def sortQ (xs : List ℚ) : List ℚ := xs.mergeSort (fun a b => decide (a ≤ b))

/-- `np.percentile(xs, q)` with the default linear interpolation:
`h = (n-1)q/100`, interpolate between the floor and ceiling ranks of the
sorted data. -/
def np_percentile (xs : List ℚ) (q : ℚ) : ℚ :=
  let s := sortQ xs
  let h := ((s.length : ℚ) - 1) * q / 100
  let vlo := s.getD ⌊h⌋.toNat 0
  let vhi := s.getD ⌈h⌉.toNat 0
  vlo + (h - (⌊h⌋ : ℚ)) * (vhi - vlo)

/-- `industry_percentiles` from
`app/repositories/intelligence_repository.py` (lines 73-175), taking the
per-fleet average rows of the bucket-filtered subquery as input (the
Python-side/`np.percentile` branch).  Returns `none` — the
`insufficient_data` signal — when fewer than `MIN_FLEETS_FOR_BENCHMARK`
tenants qualify. -/
def industry_percentiles (fleet_size_bucket : String)
    (per_fleet : List PerFleetAgg) : Option IndustryContext :=
  let n_fleets := per_fleet.length
  if n_fleets < MIN_FLEETS_FOR_BENCHMARK then none
  else
    let margins := per_fleet.map (fun r => r.fleet_avg_margin)
    let rates := per_fleet.map (fun r => r.fleet_avg_rate_per_km)
    let costs := per_fleet.map (fun r => r.fleet_avg_cost_per_km)
    some
      { n_fleets := n_fleets
      , fleet_size_bucket := fleet_size_bucket
      , industry_avg_margin_pct := round_to 2 (np_mean margins)
      , p25_margin_pct := round_to 2 (np_percentile margins 25)
      , p50_margin_pct := round_to 2 (np_percentile margins 50)
      , p75_margin_pct := round_to 2 (np_percentile margins 75)
      , p90_margin_pct := round_to 2 (np_percentile margins 90)
      , industry_avg_rate_per_km := round_to 3 (np_mean rates)
      , industry_avg_cost_per_km := round_to 3 (np_mean costs) }

/-- The breakpoint table `p` of `_estimate_percentile`
(`app/services/benchmarking.py` lines 158-165), with the synthetic
0th/100th points at ±20 beyond p25/p90. -/
def percentile_points (industry : IndustryContext) : List (ℤ × ℚ) :=
  [ (0, industry.p25_margin_pct - 20)
  , (25, industry.p25_margin_pct)
  , (50, industry.p50_margin_pct)
  , (75, industry.p75_margin_pct)
  , (90, industry.p90_margin_pct)
  , (100, industry.p90_margin_pct + 20) ]

/-- The `for i in range(len(p) - 1)` interpolation loop of
`_estimate_percentile`: first interval whose `[val_lo, val_hi]` contains
the margin wins; equal endpoints return `pct_lo`; otherwise linear
interpolation, truncated by Python `int()` and clamped to [0, 100]. -/
def interp_scan (m : ℚ) : List (ℤ × ℚ) → Option ℤ
  | (plo, vlo) :: (phi, vhi) :: rest =>
      if vlo ≤ m ∧ m ≤ vhi then
        if vhi = vlo then some plo
        else some (min 100 (max 0
          (pyInt ((plo : ℚ) + (m - vlo) / (vhi - vlo) * ((phi : ℚ) - (plo : ℚ))))))
      else interp_scan m ((phi, vhi) :: rest)
  | _ => none

/-- `_estimate_percentile` from `app/services/benchmarking.py`
(lines 152-176). -/
def estimate_percentile (fleet_margin : ℚ) (industry : IndustryContext) : ℤ :=
  match interp_scan fleet_margin (percentile_points industry) with
  | some v => v
  | none => if fleet_margin > industry.p90_margin_pct + 20 then 100 else 0

/-- `_generate_insights` from `app/services/benchmarking.py`
(lines 178-221); message bodies abbreviated to fixed labels. -/
def generate_insights (fleet : FleetMetrics) (industry : IndustryContext)
    (percentile : ℤ) (_margin_delta : ℚ) : List String :=
  let standing :=
    if percentile ≥ 75 then "top-quartile-performer"
    else if percentile ≥ 50 then "above-median"
    else if percentile ≥ 25 then "below-median"
    else "bottom-quartile"
  [standing]
    ++ (if fleet.avg_cost_per_km > industry.industry_avg_cost_per_km * (11/10)
        then ["cost-per-km-10pct-above-industry"] else [])
    ++ (if fleet.avg_rate_per_km < industry.industry_avg_rate_per_km * (9/10)
        then ["rate-per-km-10pct-below-peers"] else [])

/-- `get_benchmark` from `app/services/benchmarking.py` (lines 74-146).
The repository collaborators are inputs: `perf` the tenant's own
aggregate, `truck_count` its active-asset count, and `industry_of` the
bucket → cross-tenant-percentiles lookup (`industry_percentiles`). -/
def get_benchmark (perf : PerfSummary) (truck_count : ℕ)
    (industry_of : String → Option IndustryContext) : BenchmarkResult :=
  let bucket := fleet_size_to_bucket truck_count
  let fleet_metrics : FleetMetrics :=
    { job_count := perf.job_count
    , avg_margin_pct := perf.avg_margin_pct
    , avg_net_profit := perf.avg_net_profit
    , avg_rate_per_km := perf.avg_rate_per_km
    , avg_cost_per_km := perf.avg_cost_per_km
    , total_revenue := perf.total_revenue
    , total_profit := perf.total_profit
    , fleet_size_bucket := bucket
    , truck_count := truck_count }
  if fleet_metrics.job_count = 0 then
    { fleet_metrics := fleet_metrics
    , industry_context := none
    , fleet_percentile := none
    , margin_vs_industry := none
    , rate_vs_industry := none
    , cost_vs_industry := none
    , insights := ["no-accepted-jobs-yet"]
    , insufficient_data := true }
  else
    match industry_of bucket with
    | none =>
        { fleet_metrics := fleet_metrics
        , industry_context := none
        , fleet_percentile := none
        , margin_vs_industry := none
        , rate_vs_industry := none
        , cost_vs_industry := none
        , insights := ["not-enough-fleets-in-bucket-yet"]
        , insufficient_data := true }
    | some industry =>
        let percentile := estimate_percentile fleet_metrics.avg_margin_pct industry
        let margin_delta :=
          round_to 2 (fleet_metrics.avg_margin_pct - industry.industry_avg_margin_pct)
        let rate_delta :=
          round_to 3 (fleet_metrics.avg_rate_per_km - industry.industry_avg_rate_per_km)
        let cost_delta :=
          round_to 3 (fleet_metrics.avg_cost_per_km - industry.industry_avg_cost_per_km)
        { fleet_metrics := fleet_metrics
        , industry_context := some industry
        , fleet_percentile := some percentile
        , margin_vs_industry := some margin_delta
        , rate_vs_industry := some rate_delta
        , cost_vs_industry := some cost_delta
        , insights := generate_insights fleet_metrics industry percentile margin_delta
        , insufficient_data := false }

/-- C6: `get_benchmark` is insufficient-data-gated: with zero tenant jobs
it returns `insufficient_data = true` and no percentile without
consulting the cross-tenant distribution (the result is identical for
every industry oracle); and whenever the bucket's cross-tenant lookup is
empty — which `industry_percentiles` produces exactly when fewer than
`MIN_FLEETS_FOR_BENCHMARK = 3` peer tenants qualify — it returns
`insufficient_data = true` regardless of the tenant's own job volume. -/
theorem C6_insufficient_data_gates :
    (∀ perf tc ind, perf.job_count = 0 →
        (get_benchmark perf tc ind).insufficient_data = true
        ∧ (get_benchmark perf tc ind).fleet_percentile = none
        ∧ ∀ ind2, get_benchmark perf tc ind = get_benchmark perf tc ind2)
    ∧ (∀ perf tc ind, ind (fleet_size_to_bucket tc) = none →
        (get_benchmark perf tc ind).insufficient_data = true
        ∧ (get_benchmark perf tc ind).fleet_percentile = none)
    ∧ (∀ bucket aggs, aggs.length < MIN_FLEETS_FOR_BENCHMARK →
        industry_percentiles bucket aggs = none) := by
  refine ⟨?_, ?_, ?_⟩
  · intro perf tc ind h
    refine ⟨by simp [get_benchmark, h], by simp [get_benchmark, h], fun ind2 => ?_⟩
    simp [get_benchmark, h]
  · intro perf tc ind h
    by_cases hj : perf.job_count = 0
    · exact ⟨by simp [get_benchmark, hj], by simp [get_benchmark, hj]⟩
    · exact ⟨by simp [get_benchmark, hj, h], by simp [get_benchmark, hj, h]⟩
  · intro bucket aggs h
    simp [industry_percentiles, h]

/-- Tenant aggregate with no accepted jobs. -/
def perfC6zero : PerfSummary :=
  { job_count := 0, avg_margin_pct := 0, avg_net_profit := 0, avg_rate_per_km := 0
  , avg_cost_per_km := 0, total_revenue := 0, total_profit := 0 }

/-- Tenant aggregate with a large job volume (500 accepted jobs). -/
def perfC6busy : PerfSummary :=
  { job_count := 500, avg_margin_pct := 20, avg_net_profit := 300, avg_rate_per_km := 2
  , avg_cost_per_km := 3/2, total_revenue := 100000, total_profit := 15000 }

/-- C6 (witness): the gates evaluated at a zero-job tenant, a busy tenant
facing an empty bucket, and an empty peer list. -/
theorem C6_witness :
    (perfC6zero.job_count = 0
      ∧ (get_benchmark perfC6zero 5 (fun _ => none)).insufficient_data = true
      ∧ (get_benchmark perfC6zero 5 (fun _ => none)).fleet_percentile = none)
    ∧ ((fun (_ : String) => (none : Option IndustryContext)) (fleet_size_to_bucket 5) = none
      ∧ (get_benchmark perfC6busy 5 (fun _ => none)).insufficient_data = true)
    ∧ (([] : List PerFleetAgg).length < MIN_FLEETS_FOR_BENCHMARK
      ∧ industry_percentiles "small" [] = none) := by
  refine ⟨⟨rfl, ?_, ?_⟩, ⟨rfl, ?_⟩, ⟨by norm_num [MIN_FLEETS_FOR_BENCHMARK], ?_⟩⟩
  · exact (C6_insufficient_data_gates.1 perfC6zero 5 (fun _ => none) rfl).1
  · exact (C6_insufficient_data_gates.1 perfC6zero 5 (fun _ => none) rfl).2.1
  · exact (C6_insufficient_data_gates.2.1 perfC6busy 5 (fun _ => none) rfl).1
  · exact C6_insufficient_data_gates.2.2 "small" [] (by norm_num [MIN_FLEETS_FOR_BENCHMARK])

/-- Helper: `min(100, max(0, x))` lies in `[0, 100]`. -/
theorem clamp_bounds (x : ℤ) : 0 ≤ min 100 (max 0 x) ∧ min 100 (max 0 x) ≤ 100 :=
  ⟨le_min (by norm_num) (le_max_left 0 x), min_le_left _ _⟩

/-- C8: with strictly increasing breakpoints, a tenant margin exactly at
the bucket's p50 interpolates to percentile exactly 50, and
`_estimate_percentile` always returns a value in `[0, 100]`. -/
theorem C8_p50_percentile_and_range :
    (∀ industry : IndustryContext,
        industry.p25_margin_pct < industry.p50_margin_pct →
        industry.p50_margin_pct < industry.p75_margin_pct →
        industry.p75_margin_pct < industry.p90_margin_pct →
        estimate_percentile industry.p50_margin_pct industry = 50)
    ∧ (∀ m industry, 0 ≤ estimate_percentile m industry
        ∧ estimate_percentile m industry ≤ 100) := by
  constructor
  · intro ind h1 h2 h3
    have hne : ind.p50_margin_pct - ind.p25_margin_pct ≠ 0 :=
      sub_ne_zero.mpr (ne_of_gt h1)
    have hA : ¬(ind.p25_margin_pct - 20 ≤ ind.p50_margin_pct
        ∧ ind.p50_margin_pct ≤ ind.p25_margin_pct) := by
      rintro ⟨-, h⟩
      linarith
    have hB : ind.p25_margin_pct ≤ ind.p50_margin_pct
        ∧ ind.p50_margin_pct ≤ ind.p50_margin_pct := ⟨le_of_lt h1, le_refl _⟩
    have hC : ¬(ind.p50_margin_pct = ind.p25_margin_pct) := fun h => hne (by rw [h]; ring)
    simp only [estimate_percentile, percentile_points, interp_scan, if_neg hA, if_pos hB,
      if_neg hC]
    rw [div_self hne]
    norm_num [pyInt]
  · intro m ind
    simp only [estimate_percentile, percentile_points, interp_scan]
    split_ifs <;>
      first
        | exact clamp_bounds _
        | constructor <;> norm_num

/-- A concrete strictly-increasing industry context for the C8 witness. -/
def indC8 : IndustryContext :=
  { n_fleets := 7, fleet_size_bucket := "medium", industry_avg_margin_pct := 21
  , p25_margin_pct := 10, p50_margin_pct := 20, p75_margin_pct := 30
  , p90_margin_pct := 40, industry_avg_rate_per_km := 2
  , industry_avg_cost_per_km := 3/2 }

/-- C8 (witness): a tenant exactly at p50 of a concrete context gets
percentile 50, and an out-of-range margin still lands in `[0, 100]`. -/
theorem C8_witness :
    (indC8.p25_margin_pct < indC8.p50_margin_pct
      ∧ estimate_percentile indC8.p50_margin_pct indC8 = 50)
    ∧ (0 ≤ estimate_percentile 12345 indC8 ∧ estimate_percentile 12345 indC8 ≤ 100) := by
  refine ⟨⟨by norm_num [indC8], ?_⟩, C8_p50_percentile_and_range.2 12345 indC8⟩
  exact C8_p50_percentile_and_range.1 indC8 (by norm_num [indC8]) (by norm_num [indC8])
    (by norm_num [indC8])

/-- The ten candidate version directories v1..v10, each holding a
complete `model.joblib`. -/
def dirsC9 : List DirEntry :=
  [ ⟨"v1", true⟩, ⟨"v2", true⟩, ⟨"v3", true⟩, ⟨"v4", true⟩, ⟨"v5", true⟩
  , ⟨"v6", true⟩, ⟨"v7", true⟩, ⟨"v8", true⟩, ⟨"v9", true⟩, ⟨"v10", true⟩ ]

/-- Helper: the element `sorted(candidates, key=_version_key)[-1]`
(`last_max_by_key`) is the initial element or a list element, and its
key dominates the initial element's and every list element's key. -/
theorem last_max_by_key_spec (l : List DirEntry) (a : DirEntry) :
    (last_max_by_key a l = a ∨ last_max_by_key a l ∈ l)
    ∧ version_key a.name ≤ version_key (last_max_by_key a l).name
    ∧ ∀ b ∈ l, version_key b.name ≤ version_key (last_max_by_key a l).name := by
  induction l generalizing a with
  | nil => simp [last_max_by_key]
  | cons b bs ih =>
    simp only [last_max_by_key]
    by_cases h : version_key a.name ≤ version_key b.name
    · rw [if_pos h]
      obtain ⟨h1, h2, h3⟩ := ih b
      refine ⟨?_, le_trans h h2, ?_⟩
      · rcases h1 with h1 | h1
        · exact Or.inr (by rw [h1]; exact List.mem_cons_self b bs)
        · exact Or.inr (List.mem_cons_of_mem b h1)
      · intro c hc
        rcases List.mem_cons.mp hc with rfl | hc
        · exact h2
        · exact h3 c hc
    · rw [if_neg h]
      obtain ⟨h1, h2, h3⟩ := ih a
      refine ⟨?_, h2, ?_⟩
      · rcases h1 with h1 | h1
        · exact Or.inl h1
        · exact Or.inr (List.mem_cons_of_mem b h1)
      · intro c hc
        rcases List.mem_cons.mp hc with rfl | hc
        · exact le_trans (le_of_not_le h) h2
        · exact h3 c hc

/-- C9: `_find_latest_version_dir` resolves versions numerically: the
name it returns belongs to a candidate directory (one with a
`model.joblib`) whose numeric key dominates every candidate's key; on
the concrete listing v1..v10 it selects "v10" — even though "v10"
precedes "v9" lexicographically — since `_version_key "v9" = 9 < 10`. -/
theorem C9_latest_version_is_numeric_max :
    (∀ dirs name, find_latest_version_dir dirs = some name →
        (∃ e ∈ dirs, e.has_model = true ∧ e.name = name)
        ∧ ∀ e ∈ dirs, e.has_model = true → version_key e.name ≤ version_key name)
    ∧ find_latest_version_dir dirsC9 = some "v10"
    ∧ "v10".data < "v9".data
    ∧ version_key "v9" < version_key "v10" := by
  refine ⟨?_, by decide, by decide, by decide⟩
  intro dirs name h
  unfold find_latest_version_dir at h
  cases hc : dirs.filter (fun d => d.has_model) with
  | nil => rw [hc] at h; simp at h
  | cons c cs =>
    rw [hc] at h
    simp only [Option.some.injEq] at h
    obtain ⟨hmem, hkey_a, hkey_all⟩ := last_max_by_key_spec cs c
    have hLmem : last_max_by_key c cs ∈ dirs.filter (fun d => d.has_model) := by
      rw [hc]
      rcases hmem with h1 | h1
      · rw [h1]; exact List.mem_cons_self c cs
      · exact List.mem_cons_of_mem c h1
    have hLdirs := List.mem_filter.mp hLmem
    constructor
    · exact ⟨last_max_by_key c cs, hLdirs.1, hLdirs.2, h⟩
    · intro e hedirs hemodel
      have he : e ∈ dirs.filter (fun d => d.has_model) :=
        List.mem_filter.mpr ⟨hedirs, hemodel⟩
      rw [hc] at he
      rw [← h]
      rcases List.mem_cons.mp he with rfl | he
      · exact hkey_a
      · exact hkey_all e he

/-- C9 (witness): the general maximality statement discharged on the
concrete v1..v10 listing. -/
theorem C9_witness :
    find_latest_version_dir dirsC9 = some "v10"
    ∧ (∃ e ∈ dirsC9, e.has_model = true ∧ e.name = "v10")
    ∧ ∀ e ∈ dirsC9, e.has_model = true → version_key e.name ≤ version_key "v10" := by
  have h : find_latest_version_dir dirsC9 = some "v10" :=
    C9_latest_version_is_numeric_max.2.1
  exact ⟨h, (C9_latest_version_is_numeric_max.1 dirsC9 "v10" h).1,
         (C9_latest_version_is_numeric_max.1 dirsC9 "v10" h).2⟩

/-- `MIN_JOBS_FOR_TREND` from `app/repositories/intelligence_repository.py`. -/
def MIN_JOBS_FOR_TREND : ℕ := 5

/-- `SLOPE_DECLINING` from `app/services/trends.py`. -/
def SLOPE_DECLINING : ℚ := -3/10

/-- `SLOPE_IMPROVING` from `app/services/trends.py`. -/
def SLOPE_IMPROVING : ℚ := 3/10

/-- `MIN_WEEKS_FOR_SIGNAL` from `app/services/trends.py`. -/
def MIN_WEEKS_FOR_SIGNAL : ℕ := 4

/-- `MIN_R2_FOR_CONFIDENCE` from `app/services/trends.py`. -/
def MIN_R2_FOR_CONFIDENCE : ℚ := 7/20

/-- One row of `weekly_margin_series` (the repository's weekly aggregate). -/
structure WeekRow where
  week_start : String
  job_count : ℕ
  avg_margin_pct : ℚ
  avg_net_profit : ℚ
  weekly_revenue : ℚ
deriving DecidableEq, Repr

/-- Dataclass `TrendDataPoint` from `app/services/trends.py`. -/
structure TrendDataPoint where
  week_start : String
  avg_margin_pct : ℚ
  job_count : ℕ
  weekly_revenue : ℚ
deriving DecidableEq, Repr

/-- Dataclass `TrendResult` from `app/services/trends.py`
(`alert_message`/`summary`, pure formatting, omitted). -/
structure TrendResult where
  trend : String
  slope_pct_per_week : Option ℚ
  r2 : Option ℚ
  confidence : String
  alert : Bool
  weeks_analyzed : ℕ
  data_points : List TrendDataPoint
deriving DecidableEq, Repr

/-- `np.polyfit(x, y, 1)` for `x = 0..n-1`: the closed-form
normal-equation solution of the degree-1 least-squares fit
(slope, intercept).  The zero-denominator guards are unreachable on the
service's path, which guarantees `n ≥ 4`. -/
def olsSlopeIntercept (y : List ℚ) : ℚ × ℚ :=
  let n : ℚ := y.length
  let xs : List ℚ := (List.range y.length).map (fun i => (i : ℚ))
  let sx := xs.sum
  let sy := y.sum
  let sxx := (xs.map (fun v => v * v)).sum
  let sxy := ((xs.zip y).map (fun p => p.1 * p.2)).sum
  let denom := n * sxx - sx * sx
  let slope := if denom = 0 then 0 else (n * sxy - sx * sy) / denom
  let intercept := if n = 0 then 0 else (sy - slope * sx) / n
  (slope, intercept)

/-- `TrendDetectionService.detect` from `app/services/trends.py`
(lines 65-163), over the fetched weekly series. -/
def detect (raw : List WeekRow) : TrendResult :=
  let filtered := raw.filter (fun r => MIN_JOBS_FOR_TREND ≤ r.job_count)
  let data_points := filtered.map (fun r =>
    { week_start := r.week_start, avg_margin_pct := r.avg_margin_pct
    , job_count := r.job_count, weekly_revenue := r.weekly_revenue : TrendDataPoint })
  if data_points.length < MIN_WEEKS_FOR_SIGNAL then
    { trend := "unknown", slope_pct_per_week := none, r2 := none
    , confidence := "insufficient_data", alert := false
    , weeks_analyzed := data_points.length, data_points := data_points }
  else
    let y := data_points.map (fun d => d.avg_margin_pct)
    let si := olsSlopeIntercept y
    let y_pred := (List.range y.length).map (fun i => si.1 * (i : ℚ) + si.2)
    let ss_res : ℚ := ((y.zip y_pred).map (fun p => (p.1 - p.2) ^ 2)).sum
    let mean := np_mean y
    let ss_tot : ℚ := (y.map (fun v => (v - mean) ^ 2)).sum
    let r2raw : ℚ := if ss_tot > 0 then 1 - ss_res / ss_tot else 0
    let slope := round_to 3 si.1
    let r2 := round_to 3 r2raw
    let trend :=
      if slope < SLOPE_DECLINING then "declining"
      else if slope > SLOPE_IMPROVING then "improving"
      else "flat"
    let confidence :=
      if MIN_R2_FOR_CONFIDENCE ≤ r2 ∧ 8 ≤ data_points.length then "high"
      else if (3/20 : ℚ) ≤ r2 ∨ MIN_WEEKS_FOR_SIGNAL ≤ data_points.length then "medium"
      else "low"
    let alert : Bool := trend = "declining" ∧ (confidence = "high" ∨ confidence = "medium")
    { trend := trend, slope_pct_per_week := some slope, r2 := some r2
    , confidence := confidence, alert := alert
    , weeks_analyzed := data_points.length, data_points := data_points }

/-- `Z_THRESHOLD_MARGIN` from `app/services/anomaly.py`. -/
def Z_THRESHOLD_MARGIN : ℚ := 2

/-- `Z_THRESHOLD_COST` from `app/services/anomaly.py`. -/
def Z_THRESHOLD_COST : ℚ := 5/2

/-- `MIN_JOBS_FOR_BASELINE` from `app/services/anomaly.py`. -/
def MIN_JOBS_FOR_BASELINE : ℕ := 10

/-- One row of `recent_jobs_with_stats` (fields used by the scan). -/
structure JobRow where
  job_id : String
  origin : Option String
  destination : Option String
  distance_km : ℚ
  offered_rate : ℚ
  total_cost : Option ℚ
  net_profit : ℚ
  margin_pct : Option ℚ
  created_at : String
deriving DecidableEq, Repr

/-- Result dict of `fleet_margin_stats` — the Z-score baseline. -/
structure FleetMarginStats where
  mean_margin : ℚ
  stddev_margin : ℚ
  mean_total_cost : ℚ
  stddev_total_cost : ℚ
  n : ℕ
deriving DecidableEq, Repr

/-- Dataclass `Anomaly` from `app/services/anomaly.py`
(`description`, pure formatting, omitted). -/
structure Anomaly where
  job_id : String
  anomaly_type : String
  severity : String
  z_score : ℚ
  actual_value : ℚ
  fleet_mean : ℚ
  fleet_stddev : ℚ
  origin : Option String
  destination : Option String
  created_at : String
deriving DecidableEq, Repr

/-- Dataclass `AnomalyReport` from `app/services/anomaly.py`
(`summary`, pure formatting, omitted). -/
structure AnomalyReport where
  fleet_id : String
  days_scanned : ℕ
  n_jobs_scanned : ℕ
  n_anomalies : ℕ
  anomalies : List Anomaly
  baseline_jobs_count : ℕ
  insufficient_baseline : Bool
deriving DecidableEq, Repr

/-- Population variance (`np.std(xs) ** 2`). -/
def pop_var (xs : List ℚ) : ℚ :=
  (xs.map (fun x => (x - np_mean xs) ^ 2)).sum / xs.length

/-- `np.std(xs)` = `sq (pop_var xs)` for a square-root model `sq`
(`ℚ` has no square root; any model satisfies `sq 0 = 0`, the only value
the theorems below depend on). -/
def np_std (sq : ℚ → ℚ) (xs : List ℚ) : ℚ := sq (pop_var xs)

/-- `fleet_margin_stats` from
`app/repositories/intelligence_repository.py` (lines 272-324): rows are
the qualifying jobs' `(margin_pct, total_cost)` pairs.  Python coerces a
zero standard deviation to `1.0` (`float(np.std(...)) or 1.0` /
`float(row.stddev_margin or 1)` — "default 1 prevents div-by-zero"). -/
def fleet_margin_stats (sq : ℚ → ℚ) (rows : List (ℚ × ℚ)) : FleetMarginStats :=
  if rows = [] then
    { mean_margin := 0, stddev_margin := 1, mean_total_cost := 0
    , stddev_total_cost := 1, n := 0 }
  else
    let margins := rows.map Prod.fst
    let costs := rows.map Prod.snd
    let sm := np_std sq margins
    let sc := np_std sq costs
    { mean_margin := np_mean margins
    , stddev_margin := if sm = 0 then 1 else sm
    , mean_total_cost := np_mean costs
    , stddev_total_cost := if sc = 0 then 1 else sc
    , n := rows.length }

/-- The margin-outlier branch of `scan_recent` for one job
(`app/services/anomaly.py` lines 118-152). -/
def margin_anomalies_for (stats : FleetMarginStats) (job : JobRow) : List Anomaly :=
  match job.margin_pct with
  | none => []
  | some m =>
    if stats.stddev_margin > 0 then
      let z := (m - stats.mean_margin) / stats.stddev_margin
      if |z| > Z_THRESHOLD_MARGIN then
        if z < 0 then
          [{ job_id := job.job_id, anomaly_type := "margin_outlier"
           , severity := if |z| > 3 then "high" else "medium"
           , z_score := round_to 2 z, actual_value := m
           , fleet_mean := round_to 2 stats.mean_margin
           , fleet_stddev := round_to 2 stats.stddev_margin
           , origin := job.origin, destination := job.destination
           , created_at := job.created_at }]
        else
          [{ job_id := job.job_id, anomaly_type := "unusually_profitable"
           , severity := "medium"
           , z_score := round_to 2 z, actual_value := m
           , fleet_mean := round_to 2 stats.mean_margin
           , fleet_stddev := round_to 2 stats.stddev_margin
           , origin := job.origin, destination := job.destination
           , created_at := job.created_at }]
      else []
    else []

/-- The cost-spike branch of `scan_recent` for one job
(`app/services/anomaly.py` lines 154-175). -/
def cost_spike_for (stats : FleetMarginStats) (job : JobRow) : List Anomaly :=
  match job.total_cost with
  | none => []
  | some c =>
    if stats.stddev_total_cost > 0 then
      let z := (c - stats.mean_total_cost) / stats.stddev_total_cost
      if z > Z_THRESHOLD_COST then
        [{ job_id := job.job_id, anomaly_type := "cost_spike"
         , severity := if z > 7/2 then "high" else "medium"
         , z_score := round_to 2 z, actual_value := round_to 2 c
         , fleet_mean := round_to 2 stats.mean_total_cost
         , fleet_stddev := round_to 2 stats.stddev_total_cost
         , origin := job.origin, destination := job.destination
         , created_at := job.created_at }]
      else []
    else []

/-- `_deduplicate`'s sort key: severity (high first) then descending
`|z_score|` — Python tuple comparison is lexicographic. -/
def anomaly_sort_le (a b : Anomaly) : Bool :=
  decide ((if a.severity = "high" then (0:ℚ) else 1) < (if b.severity = "high" then (0:ℚ) else 1)
    ∨ ((if a.severity = "high" then (0:ℚ) else 1) = (if b.severity = "high" then (0:ℚ) else 1)
        ∧ -|a.z_score| ≤ -|b.z_score|))

/-- `_deduplicate` from `app/services/anomaly.py` (lines 204-214):
keeps every entry, sorted by severity then descending `|z|`. -/
def deduplicate (l : List Anomaly) : List Anomaly := l.mergeSort anomaly_sort_le

/-- `AnomalyDetectionService.scan_recent` from `app/services/anomaly.py`
(lines 81-198), over the fetched baseline statistics and recent jobs. -/
def scan_recent (fleet_id : String) (stats : FleetMarginStats)
    (recent_jobs : List JobRow) (days : ℕ) : AnomalyReport :=
  if stats.n < MIN_JOBS_FOR_BASELINE then
    { fleet_id := fleet_id, days_scanned := days
    , n_jobs_scanned := recent_jobs.length, n_anomalies := 0, anomalies := []
    , baseline_jobs_count := stats.n, insufficient_baseline := true }
  else
    let anomalies := deduplicate
      ((recent_jobs.map (fun j => margin_anomalies_for stats j ++ cost_spike_for stats j)).flatten)
    { fleet_id := fleet_id, days_scanned := days
    , n_jobs_scanned := recent_jobs.length, n_anomalies := anomalies.length
    , anomalies := anomalies
    , baseline_jobs_count := stats.n, insufficient_baseline := false }

/-- C10: `detect` never returns confidence "low": whenever a fit is
attempted at least `MIN_WEEKS_FOR_SIGNAL = 4` points are present, which
alone satisfies the "medium" disjunct, so the result is always
"insufficient_data", "high" or "medium". -/
theorem C10_confidence_never_low (raw : List WeekRow) :
    (detect raw).confidence = "insufficient_data"
    ∨ (detect raw).confidence = "high"
    ∨ (detect raw).confidence = "medium" := by
  simp only [detect, MIN_WEEKS_FOR_SIGNAL]
  split_ifs with h1 <;> simp_all

/-- Helper: a zero margin stddev in the stats record suppresses the
margin branch entirely. -/
theorem margin_anomalies_for_zero_std (stats : FleetMarginStats) (job : JobRow)
    (h : stats.stddev_margin = 0) : margin_anomalies_for stats job = [] := by
  unfold margin_anomalies_for
  cases job.margin_pct with
  | none => rfl
  | some m => simp [h]

/-- Helper: a zero cost stddev in the stats record suppresses the
cost-spike branch entirely. -/
theorem cost_spike_for_zero_std (stats : FleetMarginStats) (job : JobRow)
    (h : stats.stddev_total_cost = 0) : cost_spike_for stats job = [] := by
  unfold cost_spike_for
  cases job.total_cost with
  | none => rfl
  | some c => simp [h]

/-- Helper: the cost-spike branch only emits `"cost_spike"` anomalies. -/
theorem cost_spike_for_type (stats : FleetMarginStats) (job : JobRow) (a : Anomaly)
    (h : a ∈ cost_spike_for stats job) : a.anomaly_type = "cost_spike" := by
  cases hc : job.total_cost with
  | none =>
    simp only [cost_spike_for, hc] at h
    exact absurd h (List.not_mem_nil a)
  | some c =>
    simp only [cost_spike_for, hc] at h
    by_cases h1 : stats.stddev_total_cost > 0
    · rw [if_pos h1] at h
      by_cases h2 : (c - stats.mean_total_cost) / stats.stddev_total_cost > Z_THRESHOLD_COST
      · rw [if_pos h2] at h
        rw [List.mem_singleton.mp h]
      · rw [if_neg h2] at h
        exact absurd h (List.not_mem_nil a)
    · rw [if_neg h1] at h
      exact absurd h (List.not_mem_nil a)

/-- Helper: the margin branch only emits `"margin_outlier"` or
`"unusually_profitable"` anomalies. -/
theorem margin_anomalies_for_type (stats : FleetMarginStats) (job : JobRow) (a : Anomaly)
    (h : a ∈ margin_anomalies_for stats job) :
    a.anomaly_type = "margin_outlier" ∨ a.anomaly_type = "unusually_profitable" := by
  cases hc : job.margin_pct with
  | none =>
    simp only [margin_anomalies_for, hc] at h
    exact absurd h (List.not_mem_nil a)
  | some m =>
    simp only [margin_anomalies_for, hc] at h
    by_cases h1 : stats.stddev_margin > 0
    · rw [if_pos h1] at h
      by_cases h2 : |(m - stats.mean_margin) / stats.stddev_margin| > Z_THRESHOLD_MARGIN
      · rw [if_pos h2] at h
        by_cases h3 : (m - stats.mean_margin) / stats.stddev_margin < 0
        · rw [if_pos h3] at h
          exact Or.inl (by rw [List.mem_singleton.mp h])
        · rw [if_neg h3] at h
          exact Or.inr (by rw [List.mem_singleton.mp h])
      · rw [if_neg h2] at h
        exact absurd h (List.not_mem_nil a)
    · rw [if_neg h1] at h
      exact absurd h (List.not_mem_nil a)

/-- C7 (amended): if the stats record given to `scan_recent` has
`stddev_margin = 0` the scan emits no margin anomaly (every emitted
anomaly is a cost spike), and `stddev_total_cost = 0` suppresses cost
spikes — so no Z-score is ever divided by a zero stddev.  However,
`fleet_margin_stats` never reports a zero stddev: it coerces it to 1
(for any square-root model and any rows), so an all-identical-margins
baseline does not trigger the suppression. -/
theorem C7_amended_zero_stddev :
    (∀ fid stats jobs days, stats.stddev_margin = 0 →
        ∀ a ∈ (scan_recent fid stats jobs days).anomalies, a.anomaly_type = "cost_spike")
    ∧ (∀ fid stats jobs days, stats.stddev_total_cost = 0 →
        ∀ a ∈ (scan_recent fid stats jobs days).anomalies, a.anomaly_type ≠ "cost_spike")
    ∧ (∀ sq : ℚ → ℚ, ∀ rows : List (ℚ × ℚ),
        (fleet_margin_stats sq rows).stddev_margin ≠ 0
        ∧ (fleet_margin_stats sq rows).stddev_total_cost ≠ 0) := by
  refine ⟨?_, ?_, ?_⟩
  · intro fid stats jobs days hstd a ha
    unfold scan_recent at ha
    split_ifs at ha with hn
    · simp at ha
    · simp only [deduplicate, List.mem_mergeSort, List.mem_flatten] at ha
      obtain ⟨l, hl, hal⟩ := ha
      rw [List.mem_map] at hl
      obtain ⟨j, hj, rfl⟩ := hl
      rw [List.mem_append] at hal
      rcases hal with hmem | hmem
      · rw [margin_anomalies_for_zero_std stats j hstd] at hmem
        exact absurd hmem (List.not_mem_nil a)
      · exact cost_spike_for_type stats j a hmem
  · intro fid stats jobs days hstd a ha
    unfold scan_recent at ha
    split_ifs at ha with hn
    · simp at ha
    · simp only [deduplicate, List.mem_mergeSort, List.mem_flatten] at ha
      obtain ⟨l, hl, hal⟩ := ha
      rw [List.mem_map] at hl
      obtain ⟨j, hj, rfl⟩ := hl
      rw [List.mem_append] at hal
      rcases hal with hmem | hmem
      · rcases margin_anomalies_for_type stats j a hmem with ht | ht <;> rw [ht] <;> decide
      · rw [cost_spike_for_zero_std stats j hstd] at hmem
        exact absurd hmem (List.not_mem_nil a)
  · intro sq rows
    unfold fleet_margin_stats
    split_ifs with h1 <;> simp_all
    constructor <;> split_ifs with hz <;> simp_all

/-- Twelve baseline jobs all at margin 20% and total cost 500 — a
baseline with zero margin and cost variance. -/
def rowsC7 : List (ℚ × ℚ) :=
  [ (20, 500), (20, 500), (20, 500), (20, 500), (20, 500), (20, 500)
  , (20, 500), (20, 500), (20, 500), (20, 500), (20, 500), (20, 500) ]

/-- A recent job at margin 25% (no recorded total cost). -/
def jobC7 : JobRow :=
  { job_id := "job-1", origin := none, destination := none
  , distance_km := 100, offered_rate := 1000, total_cost := none, net_profit := 250
  , margin_pct := some 25, created_at := "2026-01-01" }

/-- C7 (counterexample): a baseline of 12 identical margins has zero
margin variance, yet `fleet_margin_stats` reports stddev 1 (the
`or 1.0` coercion), so the scan computes a Z-score of 5 for a recent job
at 25% and emits a margin anomaly — the claimed suppression does not
happen for an all-identical baseline. -/
theorem C7_counterexample :
    pop_var (rowsC7.map Prod.fst) = 0
    ∧ (fleet_margin_stats id rowsC7).stddev_margin = 1
    ∧ (scan_recent "fleet-1" (fleet_margin_stats id rowsC7) [jobC7] 30).n_anomalies = 1
    ∧ (scan_recent "fleet-1" (fleet_margin_stats id rowsC7) [jobC7] 30).anomalies
        = [{ job_id := "job-1", anomaly_type := "unusually_profitable", severity := "medium"
           , z_score := 5, actual_value := 25, fleet_mean := 20, fleet_stddev := 1
           , origin := none, destination := none, created_at := "2026-01-01" }] := by
  have hstats : fleet_margin_stats id rowsC7
      = { mean_margin := 20, stddev_margin := 1, mean_total_cost := 500
        , stddev_total_cost := 1, n := 12 } := by
    norm_num [fleet_margin_stats, np_std, pop_var, np_mean, rowsC7]
    exact List.cons_ne_nil _ _
  have hvar : pop_var (rowsC7.map Prod.fst) = 0 := by
    norm_num [pop_var, np_mean, rowsC7]
  refine ⟨hvar, by rw [hstats], ?_, ?_⟩ <;>
    rw [hstats] <;>
    norm_num [scan_recent, MIN_JOBS_FOR_BASELINE, margin_anomalies_for, cost_spike_for,
      deduplicate, jobC7, Z_THRESHOLD_MARGIN, round_to, round_half_even, List.mergeSort]

/-- Stats record with both stddevs zero, as the amended theorem's
hypotheses require (reachable only by bypassing `fleet_margin_stats`). -/
def statsC7zero : FleetMarginStats :=
  { mean_margin := 20, stddev_margin := 0, mean_total_cost := 500
  , stddev_total_cost := 0, n := 12 }

/-- C7 (witness): the amended theorem applied at a concrete zero-stddev
stats record and at the concrete identical-margins baseline. -/
theorem C7_amended_witness :
    (statsC7zero.stddev_margin = 0
      ∧ ∀ a ∈ (scan_recent "fleet-1" statsC7zero [jobC7] 30).anomalies,
          a.anomaly_type = "cost_spike")
    ∧ (statsC7zero.stddev_total_cost = 0
      ∧ ∀ a ∈ (scan_recent "fleet-1" statsC7zero [jobC7] 30).anomalies,
          a.anomaly_type ≠ "cost_spike")
    ∧ ((fleet_margin_stats id rowsC7).stddev_margin ≠ 0
      ∧ (fleet_margin_stats id rowsC7).stddev_total_cost ≠ 0) :=
  ⟨⟨rfl, C7_amended_zero_stddev.1 "fleet-1" statsC7zero [jobC7] 30 rfl⟩,
   ⟨rfl, C7_amended_zero_stddev.2.1 "fleet-1" statsC7zero [jobC7] 30 rfl⟩,
   C7_amended_zero_stddev.2.2 id rowsC7⟩
